import Mathlib

/-!
Verification development for the AI-inventory / risk-tiering / evidence-package
application (`source.py`, `app.py`).

The Python code is shallowly embedded: Pydantic models become structures,
module-level dictionaries become association lists with Python-dict semantics
(first-match lookup, in-place replacement on key collision, insertion order
preserved), and every function under scrutiny is translated into an executable
Lean definition mirroring the source line by line.  Timestamps produced by
`datetime.now()` are passed in as explicit string parameters, since the source
treats them as opaque ISO strings.
-/

/-- `AIType` enum from `source.py`. -/
inductive AIType where
  | ML | LLM | AGENT
deriving DecidableEq, Repr

/-- `.value` of the string enum. -/
def AIType.value : AIType → String
  | .ML => "ML"
  | .LLM => "LLM"
  | .AGENT => "AGENT"

/-- `DeploymentMode` enum from `source.py`. -/
inductive DeploymentMode where
  | BATCH | REAL_TIME | HUMAN_IN_LOOP | INTERNAL_ONLY
deriving DecidableEq, Repr

def DeploymentMode.value : DeploymentMode → String
  | .BATCH => "BATCH"
  | .REAL_TIME => "REAL_TIME"
  | .HUMAN_IN_LOOP => "HUMAN_IN_LOOP"
  | .INTERNAL_ONLY => "INTERNAL_ONLY"

/-- `DecisionCriticality` enum from `source.py`. -/
inductive DecisionCriticality where
  | LOW | MEDIUM | HIGH
deriving DecidableEq, Repr

def DecisionCriticality.value : DecisionCriticality → String
  | .LOW => "LOW"
  | .MEDIUM => "MEDIUM"
  | .HIGH => "HIGH"

/-- `AutomationLevel` enum from `source.py`. -/
inductive AutomationLevel where
  | ADVISORY | HUMAN_APPROVAL | FULLY_AUTOMATED
deriving DecidableEq, Repr

def AutomationLevel.value : AutomationLevel → String
  | .ADVISORY => "ADVISORY"
  | .HUMAN_APPROVAL => "HUMAN_APPROVAL"
  | .FULLY_AUTOMATED => "FULLY_AUTOMATED"

/-- `DataSensitivity` enum from `source.py`. -/
inductive DataSensitivity where
  | PUBLIC | INTERNAL | CONFIDENTIAL | REGULATED_PII
deriving DecidableEq, Repr

def DataSensitivity.value : DataSensitivity → String
  | .PUBLIC => "PUBLIC"
  | .INTERNAL => "INTERNAL"
  | .CONFIDENTIAL => "CONFIDENTIAL"
  | .REGULATED_PII => "REGULATED_PII"

/-- `RiskTier` enum from `source.py`. -/
inductive RiskTier where
  | TIER_1 | TIER_2 | TIER_3
deriving DecidableEq, Repr

def RiskTier.value : RiskTier → String
  | .TIER_1 => "TIER_1"
  | .TIER_2 => "TIER_2"
  | .TIER_3 => "TIER_3"

/-- `LifecyclePhase` enum from `source.py`. -/
inductive LifecyclePhase where
  | INCEPTION | DATA | DESIGN_BUILD | VALIDATION | DEPLOYMENT | OPERATIONS | CHANGE_RETIRE
deriving DecidableEq, Repr

def LifecyclePhase.value : LifecyclePhase → String
  | .INCEPTION => "INCEPTION"
  | .DATA => "DATA"
  | .DESIGN_BUILD => "DESIGN_BUILD"
  | .VALIDATION => "VALIDATION"
  | .DEPLOYMENT => "DEPLOYMENT"
  | .OPERATIONS => "OPERATIONS"
  | .CHANGE_RETIRE => "CHANGE_RETIRE"

/-- `RiskVector` enum from `source.py`. -/
inductive RiskVector where
  | FUNCTIONAL | ROBUSTNESS | SECURITY | BIAS_FAIRNESS | INTERPRETABILITY
  | OPERATIONAL | VENDOR_OPACITY | COMPLIANCE
deriving DecidableEq, Repr

def RiskVector.value : RiskVector → String
  | .FUNCTIONAL => "FUNCTIONAL"
  | .ROBUSTNESS => "ROBUSTNESS"
  | .SECURITY => "SECURITY"
  | .BIAS_FAIRNESS => "BIAS_FAIRNESS"
  | .INTERPRETABILITY => "INTERPRETABILITY"
  | .OPERATIONAL => "OPERATIONAL"
  | .VENDOR_OPACITY => "VENDOR_OPACITY"
  | .COMPLIANCE => "COMPLIANCE"

/-- The iteration order of the seven `LifecyclePhase` members (Python `for phase in LifecyclePhase`). -/
def ALL_PHASES : List LifecyclePhase :=
  [.INCEPTION, .DATA, .DESIGN_BUILD, .VALIDATION, .DEPLOYMENT, .OPERATIONS, .CHANGE_RETIRE]

/-- The iteration order of the eight `RiskVector` members (Python `for vector in RiskVector`). -/
def ALL_VECTORS : List RiskVector :=
  [.FUNCTIONAL, .ROBUSTNESS, .SECURITY, .BIAS_FAIRNESS, .INTERPRETABILITY,
   .OPERATIONAL, .VENDOR_OPACITY, .COMPLIANCE]

/-! ## CONFIG (`source.py` lines 18-65)

The nested Python dictionary is flattened into individual constants and total
lookup functions (the enum domains are closed, so the per-dimension point
tables become total functions; `mappings.get(value, 0)` can never take its
default branch). -/

def CONFIG_app_version : String := "1.0"

def CONFIG_scoring_version : String := "1.0"

def TIER_1_MIN : Int := 22

def TIER_2_MIN : Int := 15

/-- `CONFIG["point_mappings"]["decision_criticality"]`. -/
def points_decision_criticality : DecisionCriticality → Int
  | .LOW => 1
  | .MEDIUM => 3
  | .HIGH => 5

/-- `CONFIG["point_mappings"]["data_sensitivity"]`. -/
def points_data_sensitivity : DataSensitivity → Int
  | .PUBLIC => 1
  | .INTERNAL => 2
  | .CONFIDENTIAL => 4
  | .REGULATED_PII => 5

/-- `CONFIG["point_mappings"]["automation_level"]`. -/
def points_automation_level : AutomationLevel → Int
  | .ADVISORY => 1
  | .HUMAN_APPROVAL => 3
  | .FULLY_AUTOMATED => 5

/-- `CONFIG["point_mappings"]["ai_type"]`. -/
def points_ai_type : AIType → Int
  | .ML => 3
  | .LLM => 4
  | .AGENT => 5

/-- `CONFIG["point_mappings"]["deployment_mode"]`. -/
def points_deployment_mode : DeploymentMode → Int
  | .INTERNAL_ONLY => 1
  | .BATCH => 2
  | .HUMAN_IN_LOOP => 2
  | .REAL_TIME => 4

/-- `CONFIG["external_dependencies_scoring"]["0_deps"]`. -/
def SCORE_0_DEPS : Int := 0

/-- `CONFIG["external_dependencies_scoring"]["1_2_deps"]`. -/
def SCORE_1_2_DEPS : Int := 2

/-- `CONFIG["external_dependencies_scoring"]["3_plus_deps"]`. -/
def SCORE_3_PLUS_DEPS : Int := 4

/-- `CONFIG["external_dependencies_scoring"]["opaque_vendor_bonus"]`
(renamed `vendor_bonus` here). -/
def vendor_bonus : Int := 2

/-- `CONFIG["external_dependencies_scoring"]["opaque_keywords"]`
(renamed `vendor_keywords` here). -/
def vendor_keywords : List String := ["openai", "anthropic", "vendor", "3rd-party", "external"]

/-- `CONFIG["default_required_controls"]` keyed by tier value. -/
def default_required_controls : RiskTier → List String
  | .TIER_1 =>
    ["Independent validation required",
     "Full documentation pack (purpose, data, training, limitations)",
     "Pre-deploy stress/robustness testing",
     "Security testing suite (adversarial + abuse cases)",
     "Bias & interpretability assessment (if applicable)",
     "Monitoring dashboard + alert thresholds",
     "Formal change control with rollback plan",
     "Incident response runbook"]
  | .TIER_2 =>
    ["Peer validation (independent reviewer)",
     "Standard documentation pack",
     "Basic robustness tests",
     "Basic security tests",
     "Monitoring + periodic review",
     "Controlled releases"]
  | .TIER_3 =>
    ["Basic documentation",
     "Basic testing",
     "Periodic spot checks / lightweight monitoring"]

/-! ## Data models (`source.py` lines 129-176)

UUIDs are modelled as their canonical lowercase hyphenated string rendering,
which is the only way the code ever observes them. -/

/-- `SystemMetadata` Pydantic model.  Default factories (`uuid4`, `now()`) are
resolved by the caller, so every field appears explicitly. -/
structure SystemMetadata where
  system_id : String
  name : String
  description : String
  domain : String
  ai_type : AIType
  owner_role : String
  deployment_mode : DeploymentMode
  decision_criticality : DecisionCriticality
  automation_level : AutomationLevel
  data_sensitivity : DataSensitivity
  external_dependencies : List String
  updated_at : String
deriving DecidableEq, Repr

/-- `TieringResult` Pydantic model.  `score_breakdown` is a Python dict built
by successive insertions, modelled as an insertion-ordered association list. -/
structure TieringResult where
  system_id : String
  risk_tier : RiskTier
  total_score : Int
  score_breakdown : List (String × Int)
  justification : String
  required_controls : List String
  computed_at : String
  scoring_version : String
deriving DecidableEq, Repr

/-- `LifecycleRiskEntry` Pydantic model (fields in declaration order). -/
structure LifecycleRiskEntry where
  risk_id : String
  system_id : String
  lifecycle_phase : LifecyclePhase
  risk_vector : RiskVector
  risk_statement : String
  impact : Int
  likelihood : Int
  severity : Int
  mitigation : String
  owner_role : String
  evidence_links : List String
  created_at : String
deriving DecidableEq, Repr

/-- Pydantic construction of `LifecycleRiskEntry`: field validation
(`impact`/`likelihood` constrained to `[1,5]` by `Field(..., ge=1, le=5)`)
followed by the `calculate_severity` model validator, which overwrites any
supplied `severity` with `impact * likelihood`.  Returns `none` exactly when
Pydantic would raise a `ValidationError`. -/
def mkLifecycleRiskEntry (risk_id system_id : String) (lifecycle_phase : LifecyclePhase)
    (risk_vector : RiskVector) (risk_statement : String) (impact likelihood severity : Int)
    (mitigation owner_role : String) (evidence_links : List String) (created_at : String) :
    Option LifecycleRiskEntry :=
  if 1 ≤ impact ∧ impact ≤ 5 ∧ 1 ≤ likelihood ∧ likelihood ≤ 5 then
    -- the model validator runs after validation and ignores the incoming `severity`
    some { risk_id := risk_id, system_id := system_id, lifecycle_phase := lifecycle_phase,
           risk_vector := risk_vector, risk_statement := risk_statement,
           impact := impact, likelihood := likelihood,
           severity := impact * likelihood,
           mitigation := mitigation, owner_role := owner_role,
           evidence_links := evidence_links, created_at := created_at }
  else none

/-! ## String helpers used by the tiering engine -/

/-- Python `str.lower()` restricted to ASCII (all configured keywords and the
dependency strings exercised by the application are ASCII). -/
def pyLowerChar (c : Char) : Char :=
  if 'A' ≤ c ∧ c ≤ 'Z' then Char.ofNat (c.toNat + 32) else c

def pyLower (s : String) : String :=
  String.mk (s.toList.map pyLowerChar)

/-- Python `needle in hay` substring containment on strings. -/
def strContains (hay needle : String) : Bool :=
  hay.toList.tails.any (fun t => needle.toList.isPrefixOf t)

/-- `any(keyword in dep.lower() for keyword in CONFIG[...]["opaque_keywords"])`. -/
def depMatchesVendorKeyword (dep : String) : Bool :=
  vendor_keywords.any (fun keyword => strContains (pyLower dep) keyword)

/-- The `for dep in ...: if any(...): dep_score += bonus; break` scan of
`calculate_risk_tier` (`source.py` lines 407-410): walk the dependency list,
add the bonus to the accumulated score at the first match, and stop. -/
def addVendorBonus : List String → Int → Int
  | [], dep_score => dep_score
  | dep :: rest, dep_score =>
    if depMatchesVendorKeyword dep then dep_score + vendor_bonus  -- break: only add bonus once
    else addVendorBonus rest dep_score

/-- The dependency-count bracket score (`source.py` lines 397-404). -/
def baseDepScore (dep_count : Nat) : Int :=
  if dep_count = 0 then SCORE_0_DEPS
  else if 1 ≤ dep_count ∧ dep_count ≤ 2 then SCORE_1_2_DEPS
  else SCORE_3_PLUS_DEPS  -- dep_count >= 3

/-- `calculate_risk_tier` (`source.py` lines 379-438).  The loop over
`CONFIG["point_mappings"].items()` is unrolled in the dictionary's insertion
order (decision_criticality, data_sensitivity, automation_level, ai_type,
deployment_mode); `mappings.get(value, 0)` never takes its default branch
because the enum domains are closed, so each lookup is the total points
function.  `computed_at` stands for the `datetime.now()` default of the
`TieringResult` constructor. -/
def calculate_risk_tier (system_metadata : SystemMetadata) (computed_at : String) :
    TieringResult :=
  let s1 := points_decision_criticality system_metadata.decision_criticality
  let s2 := points_data_sensitivity system_metadata.data_sensitivity
  let s3 := points_automation_level system_metadata.automation_level
  let s4 := points_ai_type system_metadata.ai_type
  let s5 := points_deployment_mode system_metadata.deployment_mode
  let dep_count := system_metadata.external_dependencies.length
  let dep_score := addVendorBonus system_metadata.external_dependencies (baseDepScore dep_count)
  let total_score := s1 + s2 + s3 + s4 + s5 + dep_score
  let score_breakdown :=
    [("decision_criticality", s1), ("data_sensitivity", s2), ("automation_level", s3),
     ("ai_type", s4), ("deployment_mode", s5), ("external_dependencies", dep_score)]
  let risk_tier :=
    if total_score ≥ TIER_1_MIN then RiskTier.TIER_1
    else if total_score ≥ TIER_2_MIN then RiskTier.TIER_2
    else RiskTier.TIER_3
  { system_id := system_metadata.system_id
    risk_tier := risk_tier
    total_score := total_score
    score_breakdown := score_breakdown
    justification := "Automated tiering based on scoring version 1.0."
    required_controls := default_required_controls risk_tier
    computed_at := computed_at
    scoring_version := CONFIG_scoring_version }

/-! ## In-memory stores (`source.py` lines 179-339, 508-556)

Python dictionaries keyed by UUID are modelled as association lists with
Python-dict semantics: lookup returns the first (unique) binding, assignment
replaces an existing binding in place (preserving insertion order) or appends
a new one, and deletion removes the binding.  The locks only serialize access
and have no sequential behaviour, so they are not modelled. -/

/-- Python `d.get(k)`. -/
def dictGet {α : Type} (k : String) : List (String × α) → Option α
  | [] => none
  | (k', v) :: rest => if k' = k then some v else dictGet k rest

/-- Python `d[k] = v`. -/
def dictSet {α : Type} (k : String) (v : α) : List (String × α) → List (String × α)
  | [] => [(k, v)]
  | (k', v') :: rest => if k' = k then (k, v) :: rest else (k', v') :: dictSet k v rest

/-- Python `del d[k]` (the caller has checked `k in d`; on an absent key this
is the identity, matching a dict whose key set does not contain `k`). -/
def dictRemove {α : Type} (k : String) : List (String × α) → List (String × α)
  | [] => []
  | (k', v') :: rest => if k' = k then rest else (k', v') :: dictRemove k rest

/-- Python `k in d` on a dict. -/
def dictContains {α : Type} (k : String) (d : List (String × α)) : Bool :=
  (d.map Prod.fst).contains k

/-- The triple of stores handed around via the `stores` parameter
(`systems`, `tiering`, `risks`). -/
structure Stores where
  systems : List (String × SystemMetadata)
  tiering : List (String × TieringResult)
  risks : List (String × LifecycleRiskEntry)
deriving DecidableEq, Repr

/-- `add_system` (`source.py` lines 263-268): `stores['systems'][id] = metadata`. -/
def add_system (system_metadata : SystemMetadata) (systems : List (String × SystemMetadata)) :
    List (String × SystemMetadata) :=
  dictSet system_metadata.system_id system_metadata systems

/-- `get_system` (`source.py` lines 271-276): `stores['systems'].get(system_id)`. -/
def get_system (system_id : String) (systems : List (String × SystemMetadata)) :
    Option SystemMetadata :=
  dictGet system_id systems

/-- `get_all_systems` (`source.py` lines 279-284): `list(stores['systems'].values())`. -/
def get_all_systems (systems : List (String × SystemMetadata)) : List SystemMetadata :=
  systems.map Prod.snd

/-- `save_tiering_result` (`source.py` lines 441-446). -/
def save_tiering_result (tiering_result : TieringResult)
    (tiering : List (String × TieringResult)) : List (String × TieringResult) :=
  dictSet tiering_result.system_id tiering_result tiering

/-- `get_tiering_result` (`source.py` lines 449-454). -/
def get_tiering_result (system_id : String) (tiering : List (String × TieringResult)) :
    Option TieringResult :=
  dictGet system_id tiering

/-- `get_risks_for_system` (`source.py` lines 508-513):
`[risk for risk in stores['risks'].values() if risk.system_id == system_id]`. -/
def get_risks_for_system (system_id : String) (risks : List (String × LifecycleRiskEntry)) :
    List LifecycleRiskEntry :=
  (risks.map Prod.snd).filter (fun risk => risk.system_id = system_id)

/-- The `updates` dict passed to `update_lifecycle_risk`.  Each field that the
caller may place in the dict is an `Option`; `none` means the key is absent.
(`risk_id`, `system_id` and `created_at` are never supplied by the callers in
the repository and are omitted.) -/
structure RiskUpdates where
  lifecycle_phase : Option LifecyclePhase := none
  risk_vector : Option RiskVector := none
  risk_statement : Option String := none
  impact : Option Int := none
  likelihood : Option Int := none
  severity : Option Int := none
  mitigation : Option String := none
  owner_role : Option String := none
  evidence_links : Option (List String) := none
deriving Repr

/-- `update_lifecycle_risk` (`source.py` lines 516-543).  Mirrors the source:
dump the current record, merge the updates, recompute `severity` when `impact`
or `likelihood` is present, then re-instantiate through the Pydantic
constructor (whose validator re-derives `severity` in every case).  Returns
the success flag and the resulting store; on a missing id or a validation
error the store is unchanged. -/
def update_lifecycle_risk (risk_id : String) (updates : RiskUpdates)
    (risks : List (String × LifecycleRiskEntry)) :
    Bool × List (String × LifecycleRiskEntry) :=
  match dictGet risk_id risks with
  | none => (false, risks)  -- print error, return False
  | some current_risk =>
    -- updated_data = current_risk.model_dump(); updated_data.update(updates)
    let impact' := updates.impact.getD current_risk.impact
    let likelihood' := updates.likelihood.getD current_risk.likelihood
    let severity' := updates.severity.getD current_risk.severity
    -- if 'impact' in updates or 'likelihood' in updates: recompute severity
    let severity'' :=
      if updates.impact.isSome ∨ updates.likelihood.isSome then impact' * likelihood'
      else severity'
    match mkLifecycleRiskEntry current_risk.risk_id current_risk.system_id
        (updates.lifecycle_phase.getD current_risk.lifecycle_phase)
        (updates.risk_vector.getD current_risk.risk_vector)
        (updates.risk_statement.getD current_risk.risk_statement)
        impact' likelihood' severity''
        (updates.mitigation.getD current_risk.mitigation)
        (updates.owner_role.getD current_risk.owner_role)
        (updates.evidence_links.getD current_risk.evidence_links)
        current_risk.created_at with
    | some updated_risk => (true, dictSet risk_id updated_risk risks)
    | none => (false, risks)  -- ValidationError, return False

/-- `delete_lifecycle_risk` (`source.py` lines 546-556). -/
def delete_lifecycle_risk (risk_id : String) (risks : List (String × LifecycleRiskEntry)) :
    Bool × List (String × LifecycleRiskEntry) :=
  if dictContains risk_id risks then (true, dictRemove risk_id risks)
  else (false, risks)

/-- `delete_system` (`source.py` lines 314-339).  The body mutates the three
module-level dictionaries in place; an exception raised after some deletions
leaves those deletions in effect, so the function returns the post-call stores
alongside the outcome.  The `except` clause re-raises every failure as
`Exception(f"Failed to delete system: {e}")`. -/
def delete_system (system_id : String) (stores : Stores) : Except String Bool × Stores :=
  -- risks_to_delete = [risk_id for risk_id, risk in stores['risks'].items()
  --                    if risk.system_id == system_id]
  let risks_to_delete :=
    (stores.risks.filter (fun p => p.snd.system_id = system_id)).map Prod.fst
  -- for risk_id in risks_to_delete: del stores['risks'][risk_id]
  let risks' := risks_to_delete.foldl (fun d risk_id => dictRemove risk_id d) stores.risks
  -- if system_id in stores['tiering']: del stores['tiering'][system_id]
  let tiering' :=
    if dictContains system_id stores.tiering then dictRemove system_id stores.tiering
    else stores.tiering
  if dictContains system_id stores.systems then
    (Except.ok true,
     { systems := dictRemove system_id stores.systems, tiering := tiering', risks := risks' })
  else
    (Except.error ("Failed to delete system: System " ++ system_id ++ " not found"),
     { systems := stores.systems, tiering := tiering', risks := risks' })

/-! ## Risk matrix (`source.py` lines 559-610)

`generate_risk_matrix` returns a pandas `DataFrame`.  Only its observable
shape matters here: either the early-return empty frame (zero rows, one column
label per risk vector) or the full phase-by-vector table whose cells are the
strings `f"Count: {count}, Max Severity: {int(max_severity)}"`.  The final
`reindex` is the identity on the table branch because the construction loops
already cover every phase and vector. -/

inductive RiskMatrix where
  /-- `pd.DataFrame(columns=[rv.value for rv in RiskVector])`: no rows. -/
  | emptyFrame (columns : List String)
  /-- Rows keyed by lifecycle-phase value, each row keyed by risk-vector value. -/
  | table (rows : List (String × List (String × String)))
deriving DecidableEq, Repr

/-- `cell_risks['severity'].max()` on a non-empty selection. -/
def maxSeverity : List Int → Int
  | [] => 0
  | v :: rest => rest.foldl max v

/-- The cell string `f"Count: {count}, Max Severity: {int(max_severity)}"`. -/
def cellString (count : Nat) (max_severity : Int) : String :=
  "Count: " ++ toString count ++ ", Max Severity: " ++ toString max_severity

/-- `generate_risk_matrix` (`source.py` lines 559-610). -/
def generate_risk_matrix (system_id : String) (risks_store : List (String × LifecycleRiskEntry)) :
    RiskMatrix :=
  let risks := get_risks_for_system system_id risks_store
  if risks.isEmpty then
    RiskMatrix.emptyFrame (ALL_VECTORS.map RiskVector.value)
  else
    RiskMatrix.table (ALL_PHASES.map (fun phase =>
      (phase.value, ALL_VECTORS.map (fun vector =>
        let cell_risks := risks.filter (fun r =>
          r.lifecycle_phase = phase ∧ r.risk_vector = vector)
        let count := cell_risks.length
        let max_severity := if count > 0 then maxSeverity (cell_risks.map (·.severity)) else 0
        (vector.value, cellString count max_severity)))))

/-- Total number of cells in the returned frame. -/
def numCells : RiskMatrix → Nat
  | .emptyFrame _ => 0
  | .table rows => (rows.map (fun row => row.snd.length)).sum

/-- Row labels (the `DataFrame` index). -/
def rowLabels : RiskMatrix → List String
  | .emptyFrame _ => []
  | .table rows => rows.map Prod.fst

/-- Cell lookup by row (phase value) and column (vector value) labels. -/
def cellAt (m : RiskMatrix) (phase vector : String) : Option String :=
  match m with
  | .emptyFrame _ => none
  | .table rows => (dictGet phase rows).bind (fun row => dictGet vector row)

/-! ## Deterministic JSON serialization (`source.py` lines 626-645)

`to_deterministic_json` is `json.dumps(obj, sort_keys=True, indent=None,
ensure_ascii=False, separators=(',', ':'), default=...)` where the default
handler renders `uuid.UUID` as `str(o)` and enums as `o.value`.  The values
ever serialized are strings, integers, `None`, lists and dicts, captured by
the `Json` inductive below.  `sort_keys=True` is realized by the smart
constructor `mkObj`, which sorts an object's keys at construction time; the
serializer then emits fields in stored order, which yields the same bytes. -/

inductive Json where
  | null
  | str (s : String)
  | int (n : Int)
  | arr (xs : List Json)
  | obj (fields : List (String × Json))
deriving Repr

def hexDigit (n : Nat) : Char :=
  if n < 10 then Char.ofNat (48 + n) else Char.ofNat (87 + n)

/-- `json.dumps` string escaping with `ensure_ascii=False`: only `"`, `\`
and control characters are escaped. -/
def jsonEscapeChar (c : Char) : String :=
  if c = '"' then "\\\""
  else if c = '\\' then "\\\\"
  else if c = '\n' then "\\n"
  else if c = '\r' then "\\r"
  else if c = '\t' then "\\t"
  else if c = '\x08' then "\\b"
  else if c = '\x0c' then "\\f"
  else if c.toNat < 32 then
    "\\u00" ++ String.mk [hexDigit (c.toNat / 16), hexDigit (c.toNat % 16)]
  else String.singleton c

def jsonEscape (s : String) : String :=
  String.join (s.toList.map jsonEscapeChar)

/-- Code-point lexicographic comparison on character lists (the order Python
uses to compare strings, and the order of `sorted` / `sort_keys=True`). -/
def charListLt : List Char → List Char → Bool
  | [], [] => false
  | [], _ :: _ => true
  | _ :: _, [] => false
  | c :: cs, d :: ds =>
    if c.toNat < d.toNat then true
    else if d.toNat < c.toNat then false
    else charListLt cs ds

/-- Python `a < b` on strings. -/
def strLt (a b : String) : Bool :=
  charListLt a.toList b.toList

/-- Insert a field into a key-sorted field list (lexicographic by code point,
matching Python string comparison under `sort_keys=True`). -/
def insertFieldSorted (p : String × Json) : List (String × Json) → List (String × Json)
  | [] => [p]
  | q :: rest => if strLt q.1 p.1 then q :: insertFieldSorted p rest else p :: q :: rest

def sortFields : List (String × Json) → List (String × Json)
  | [] => []
  | p :: rest => insertFieldSorted p (sortFields rest)

/-- Build a JSON object with its keys sorted (the `sort_keys=True` policy). -/
def mkObj (fields : List (String × Json)) : Json :=
  Json.obj (sortFields fields)

mutual

/-- Compact serialization with `separators=(',', ':')`. -/
def jsonSerialize : Json → String
  | .null => "null"
  | .str s => "\"" ++ jsonEscape s ++ "\""
  | .int n => toString n
  | .arr xs => "[" ++ jsonSerializeItems xs ++ "]"
  | .obj fields => "\x7b" ++ jsonSerializeFields fields ++ "\x7d"

def jsonSerializeItems : List Json → String
  | [] => ""
  | [x] => jsonSerialize x
  | x :: y :: rest => jsonSerialize x ++ "," ++ jsonSerializeItems (y :: rest)

def jsonSerializeFields : List (String × Json) → String
  | [] => ""
  | [(k, v)] => "\"" ++ jsonEscape k ++ "\":" ++ jsonSerialize v
  | (k, v) :: q :: rest =>
    "\"" ++ jsonEscape k ++ "\":" ++ jsonSerialize v ++ "," ++ jsonSerializeFields (q :: rest)

end

/-- `to_deterministic_json` (`source.py` lines 626-645); key sorting has
already been applied by `mkObj` at every object construction site. -/
def to_deterministic_json (obj : Json) : String :=
  jsonSerialize obj

/-- Models `compute_sha256` (`source.py` lines 621-623), i.e.
`hashlib.sha256(data).hexdigest()` on the artifact's bytes.  The library
digest is modelled symbolically as an ideal (deterministic and collision-free)
digest: a tagged copy of the input.  Every property proved below uses only
determinism (equal bytes give equal digests) and, for concrete
counterexamples, evaluation at explicit inputs; no property relies on the
digest being short. -/
def compute_sha256 (data : String) : String :=
  "sha256:" ++ data

/-! ## Artifact contents (`generate_evidence_package`, `source.py` lines 650-999)

Each artifact's byte content is a pure function of the store snapshot and, for
the executive summary and manifest, of the `run_id` / `datetime.now()` values,
which are passed in explicitly.  File and archive I/O (the artifact sink) is
outside the model; the functions below produce exactly the strings the source
writes to each file. -/

/-- Minimal-quoting CSV field rendering (`pandas.DataFrame.to_csv` default):
a field is quoted, with inner quotes doubled, only when it contains a comma,
a quote or a line break.  Enum-valued cells are rendered as the member's
string value and UUID cells as their canonical string (modelling choice for
`str()` of the cell objects). -/
def csvField (s : String) : String :=
  if s.toList.any (fun c => c = ',' ∨ c = '"' ∨ c = '\n' ∨ c = '\r') then
    "\"" ++ String.join (s.toList.map (fun c =>
      if c = '"' then "\"\"" else String.singleton c)) ++ "\""
  else s

/-- One row of `model_inventory.csv` in the fixed `inventory_columns` order
(`source.py` lines 672-676), with `external_dependencies` pipe-joined
(`source.py` lines 668-669). -/
def inventoryRow (s : SystemMetadata) : String :=
  String.intercalate ","
    [csvField s.system_id, csvField s.name, csvField s.domain, csvField s.ai_type.value,
     csvField s.owner_role, csvField s.decision_criticality.value,
     csvField s.automation_level.value, csvField s.data_sensitivity.value,
     csvField s.deployment_mode.value,
     csvField (String.intercalate "|" s.external_dependencies),
     csvField s.updated_at]

/-- `model_inventory.csv` content (`source.py` lines 660-684): header row plus
one row per system in store order, each terminated by a newline. -/
def model_inventory_csv (all_systems_metadata : List SystemMetadata) : String :=
  "system_id,name,domain,ai_type,owner_role,decision_criticality,automation_level," ++
  "data_sensitivity,deployment_mode,external_dependencies,updated_at\n" ++
  String.join (all_systems_metadata.map (fun s => inventoryRow s ++ "\n"))

/-- `TieringResult.model_dump()` as a JSON object (keys sorted on
serialization). -/
def tieringResultJson (t : TieringResult) : Json :=
  mkObj [("system_id", .str t.system_id),
         ("risk_tier", .str t.risk_tier.value),
         ("total_score", .int t.total_score),
         ("score_breakdown", mkObj (t.score_breakdown.map (fun p => (p.1, Json.int p.2)))),
         ("justification", .str t.justification),
         ("required_controls", .arr (t.required_controls.map Json.str)),
         ("computed_at", .str t.computed_at),
         ("scoring_version", .str t.scoring_version)]

/-- `risk_tiering.json` content (`source.py` lines 694-710): the tiering
results of the systems that have one, in inventory order. -/
def risk_tiering_json (all_systems_metadata : List SystemMetadata)
    (tiering : List (String × TieringResult)) : String :=
  let all_tiering_results :=
    all_systems_metadata.filterMap (fun s => get_tiering_result s.system_id tiering)
  to_deterministic_json (mkObj
    [("scoring_version", .str CONFIG_scoring_version),
     ("systems", .arr (all_tiering_results.map tieringResultJson))])

/-- `LifecycleRiskEntry.model_dump()` as a JSON object. -/
def riskEntryJson (r : LifecycleRiskEntry) : Json :=
  mkObj [("risk_id", .str r.risk_id),
         ("system_id", .str r.system_id),
         ("lifecycle_phase", .str r.lifecycle_phase.value),
         ("risk_vector", .str r.risk_vector.value),
         ("risk_statement", .str r.risk_statement),
         ("impact", .int r.impact),
         ("likelihood", .int r.likelihood),
         ("severity", .int r.severity),
         ("mitigation", .str r.mitigation),
         ("owner_role", .str r.owner_role),
         ("evidence_links", .arr (r.evidence_links.map Json.str)),
         ("created_at", .str r.created_at)]

/-- `lifecycle_risk_map.json` content (`source.py` lines 720-734): only
systems with at least one risk appear. -/
def lifecycle_risk_map_json (all_systems_metadata : List SystemMetadata)
    (risks : List (String × LifecycleRiskEntry)) : String :=
  to_deterministic_json (mkObj
    [("systems", .arr ((all_systems_metadata.filter (fun s =>
        !(get_risks_for_system s.system_id risks).isEmpty)).map (fun s =>
          mkObj [("system_id", .str s.system_id),
                 ("risks", .arr ((get_risks_for_system s.system_id risks).map riskEntryJson))])))])

/-- The `CONFIG` dictionary as a JSON value (for `config_snapshot.json`,
`source.py` lines 935-938). -/
def CONFIG_json : Json :=
  mkObj
    [("app_version", .str CONFIG_app_version),
     ("scoring_version", .str CONFIG_scoring_version),
     ("tier_thresholds", mkObj [("TIER_1_MIN", .int TIER_1_MIN), ("TIER_2_MIN", .int TIER_2_MIN)]),
     ("point_mappings", mkObj
       [("decision_criticality", mkObj [("LOW", .int 1), ("MEDIUM", .int 3), ("HIGH", .int 5)]),
        ("data_sensitivity", mkObj
          [("PUBLIC", .int 1), ("INTERNAL", .int 2), ("CONFIDENTIAL", .int 4),
           ("REGULATED_PII", .int 5)]),
        ("automation_level", mkObj
          [("ADVISORY", .int 1), ("HUMAN_APPROVAL", .int 3), ("FULLY_AUTOMATED", .int 5)]),
        ("ai_type", mkObj [("ML", .int 3), ("LLM", .int 4), ("AGENT", .int 5)]),
        ("deployment_mode", mkObj
          [("INTERNAL_ONLY", .int 1), ("BATCH", .int 2), ("HUMAN_IN_LOOP", .int 2),
           ("REAL_TIME", .int 4)])]),
     ("external_dependencies_scoring", mkObj
       [("0_deps", .int SCORE_0_DEPS), ("1_2_deps", .int SCORE_1_2_DEPS),
        ("3_plus_deps", .int SCORE_3_PLUS_DEPS),
        ("opaque_vendor_bonus", .int vendor_bonus),
        ("opaque_keywords", .arr (vendor_keywords.map Json.str))]),
     ("default_required_controls", mkObj
       [("TIER_1", .arr ((default_required_controls .TIER_1).map Json.str)),
        ("TIER_2", .arr ((default_required_controls .TIER_2).map Json.str)),
        ("TIER_3", .arr ((default_required_controls .TIER_3).map Json.str))]),
     ("random_seed", .null)]

/-- `config_snapshot.json` content. -/
def config_snapshot_json : String :=
  to_deterministic_json CONFIG_json

/-! ## Executive summary helpers

The summary uses `pandas.Series.value_counts()`, `.describe()` and
`sort_values`.  These library calls are modelled by deterministic Lean
equivalents: `value_counts` lists the distinct values sorted by descending
count (tie order among equal counts is unspecified in pandas; the model fixes
it deterministically), `describe` supplies the exact-rational mean and the
maximum, and the top-risk sort is a deterministic descending sort on
`severity`.  Every claim proved below compares runs over the *same* store
snapshot, for which any deterministic rendering of these aggregates yields
identical bytes, so none of the claims depends on the tie-break or on binary
floating-point rounding. -/

/-- `f"...{'s' if count != 1 else ''}"`. -/
def pluralS (count : Nat) : String :=
  if count ≠ 1 then "s" else ""

/-- Distinct values in first-appearance order. -/
def uniqueInOrder (l : List String) : List String :=
  l.foldl (fun acc x => if acc.contains x then acc else acc ++ [x]) []

/-- Number of occurrences of `v` in `l`. -/
def countOcc (l : List String) (v : String) : Nat :=
  (l.filter (fun y => y = v)).length

def insertCountDesc (p : String × Nat) : List (String × Nat) → List (String × Nat)
  | [] => [p]
  | q :: rest => if q.2 ≥ p.2 then q :: insertCountDesc p rest else p :: q :: rest

def sortCountsDesc : List (String × Nat) → List (String × Nat)
  | [] => []
  | p :: rest => insertCountDesc p (sortCountsDesc rest)

/-- `pd.Series(l).value_counts()`: distinct values with their counts, sorted
by descending count. -/
def value_counts (l : List String) : List (String × Nat) :=
  sortCountsDesc ((uniqueInOrder l).map (fun v => (v, countOcc l v)))

/-- Round `num / den` to the nearest integer, ties to even (the rounding used
by Python's fixed-point float formatting, applied here to the exact rational). -/
def roundHalfEven (num den : Nat) : Nat :=
  let q := num / den
  let r := num % den
  if 2 * r < den then q
  else if 2 * r > den then q + 1
  else if q % 2 = 0 then q else q + 1

/-- `f"{num/den:.{decimals}f}"` for a non-negative exact rational. -/
def formatFixedNat (num den decimals : Nat) : String :=
  let scaled := roundHalfEven (num * 10 ^ decimals) den
  let ip := scaled / 10 ^ decimals
  let fp := scaled % 10 ^ decimals
  let fpStr := toString fp
  let pad := String.mk (List.replicate (decimals - fpStr.length) '0')
  toString ip ++ "." ++ pad ++ fpStr

/-- `f"{num/den:.{decimals}f}"` for an integer numerator. -/
def formatFixedInt (num : Int) (den decimals : Nat) : String :=
  if num < 0 then "-" ++ formatFixedNat (-num).toNat den decimals
  else formatFixedNat num.toNat den decimals

/-- Descending stable insertion by `severity` (models
`sort_values(by='severity', ascending=False)` on the top-risk table). -/
def insertRiskDesc (r : LifecycleRiskEntry) :
    List LifecycleRiskEntry → List LifecycleRiskEntry
  | [] => [r]
  | x :: rest => if x.severity ≥ r.severity then x :: insertRiskDesc r rest else r :: x :: rest

def sortRisksBySeverityDesc : List LifecycleRiskEntry → List LifecycleRiskEntry
  | [] => []
  | r :: rest => insertRiskDesc r (sortRisksBySeverityDesc rest)

/-- One numbered block of the "Top Risks by Severity" section
(`source.py` lines 867-881). -/
def topRiskBlock (all_systems_metadata : List SystemMetadata) (idx : Nat)
    (row : LifecycleRiskEntry) : String :=
  let system_name :=
    ((all_systems_metadata.find? (fun s => s.system_id = row.system_id)).map
      (fun s => s.name)).getD "Unknown System"
  "### " ++ toString idx ++ ". " ++ system_name ++ "\n" ++
  "**Lifecycle Phase:** " ++ row.lifecycle_phase.value ++ " | " ++
  "**Risk Vector:** " ++ row.risk_vector.value ++ "\n\n" ++
  "**Severity Score:** " ++ toString row.severity ++ " (Impact: " ++ toString row.impact ++
  "/5, Likelihood: " ++ toString row.likelihood ++ "/5)\n\n" ++
  "**Risk Statement:** " ++ row.risk_statement ++ "\n\n" ++
  (if row.mitigation ≠ "" then "**Mitigation Strategy:** " ++ row.mitigation ++ "\n\n" else "") ++
  "**Owner:** " ++ row.owner_role ++ "\n\n" ++
  "---\n\n"

/-- `case1_executive_summary.md` content (`source.py` lines 744-920),
transcribed append by append.  `run_id` and `generated_at` (the
`datetime.now()` call at line 746) are embedded in the header; everything
else is a function of the store snapshot.  The byte sequence "â‰¥"
in the severity line reproduces the literal mojibake present in the source
file. -/
def case1_executive_summary_md (run_id generated_at team_or_user : String)
    (all_systems_metadata : List SystemMetadata)
    (tiering : List (String × TieringResult))
    (risks : List (String × LifecycleRiskEntry)) : String :=
  let all_tiering_results :=
    all_systems_metadata.filterMap (fun s => get_tiering_result s.system_id tiering)
  let tierValues := all_tiering_results.map (fun t => t.risk_tier.value)
  let all_risks :=
    (all_systems_metadata.map (fun s => get_risks_for_system s.system_id risks)).flatten
  "# Executive Summary for Case 1 (Run ID: " ++ run_id ++ ")\n\n" ++
  "**Generated At:** " ++ generated_at ++ "\n" ++
  "**App Version:** " ++ CONFIG_app_version ++ "\n" ++
  "**Prepared By:** " ++ team_or_user ++ "\n\n" ++
  "---\n\n" ++
  "## Executive Overview\n\n" ++
  "This report provides a comprehensive assessment of our organization's AI system portfolio, " ++
  "including risk tiering analysis and lifecycle risk evaluation. The assessment framework applies " ++
  "a deterministic, rules-based methodology to ensure consistent and auditable risk classification " ++
  "across all AI systems.\n\n" ++
  "The inventory covers systems spanning multiple domains and use cases, from customer-facing " ++
  "applications to internal automation tools. Each system has been evaluated against standardized " ++
  "criteria including decision criticality, data sensitivity, automation level, and external dependencies.\n\n" ++
  "## AI System Inventory Summary\n\n" ++
  "**Total AI Systems Registered:** " ++ toString all_systems_metadata.length ++ "\n\n" ++
  "**Breakdown by AI Type:**\n" ++
  String.join ((value_counts (all_systems_metadata.map (fun s => s.ai_type.value))).map
    (fun p => "- " ++ p.1 ++ ": " ++ toString p.2 ++ " system" ++ pluralS p.2 ++ "\n")) ++
  "\n" ++
  "**Systems by Business Domain:**\n" ++
  String.join ((value_counts (all_systems_metadata.map (fun s => s.domain))).map
    (fun p => "- " ++ p.1 ++ ": " ++ toString p.2 ++ " system" ++ pluralS p.2 ++ "\n")) ++
  "\n" ++
  "**Decision Criticality Distribution:**\n" ++
  String.join ((value_counts (all_systems_metadata.map (fun s => s.decision_criticality.value))).map
    (fun p => "- " ++ p.1 ++ ": " ++ toString p.2 ++ " system" ++ pluralS p.2 ++ "\n")) ++
  "\n" ++
  "## Risk Tiering Overview\n\n" ++
  "Our risk tiering methodology assigns each AI system to one of three tiers based on a comprehensive " ++
  "scoring model that evaluates decision criticality, data sensitivity, automation level, AI type, " ++
  "deployment mode, and external dependencies. Higher tiers trigger more stringent governance controls " ++
  "and oversight requirements.\n\n" ++
  "**Tier Distribution:**\n" ++
  String.join ([RiskTier.TIER_1, RiskTier.TIER_2, RiskTier.TIER_3].map (fun tier =>
    let count := countOcc tierValues tier.value
    "- **" ++ tier.value ++ "** (Highest Risk): " ++ toString count ++ " system" ++
    pluralS count ++ "\n")) ++
  "\n" ++
  (if all_tiering_results.isEmpty then "" else
    "**Average Risk Score Across All Systems:** " ++
    formatFixedInt ((all_tiering_results.map (fun t => t.total_score)).sum)
      all_tiering_results.length 1 ++ "\n\n") ++
  String.join ([RiskTier.TIER_1, RiskTier.TIER_2, RiskTier.TIER_3].map (fun tier =>
    let tier_systems := all_systems_metadata.filter (fun s =>
      match get_tiering_result s.system_id tiering with
      | some t => t.risk_tier = tier
      | none => false)
    if tier_systems.isEmpty then "" else
      "**" ++ tier.value ++ " Systems:**\n" ++
      String.join (tier_systems.map (fun s =>
        let score := ((get_tiering_result s.system_id tiering).map
          (fun t => toString t.total_score)).getD ""
        "- " ++ s.name ++ " (Score: " ++ score ++ ", Domain: " ++ s.domain ++ ", " ++
        "Type: " ++ s.ai_type.value ++ ")\n")) ++
      "\n")) ++
  "## Lifecycle Risk Analysis\n\n" ++
  (if !all_risks.isEmpty then
    "**Total Risks Identified:** " ++ toString all_risks.length ++ "\n\n" ++
    "**Risks by Lifecycle Phase:**\n" ++
    String.join ((value_counts (all_risks.map (fun r => r.lifecycle_phase.value))).map
      (fun p => "- " ++ p.1 ++ ": " ++ toString p.2 ++ " risk" ++ pluralS p.2 ++ "\n")) ++
    "\n" ++
    "**Risks by Vector:**\n" ++
    String.join ((value_counts (all_risks.map (fun r => r.risk_vector.value))).map
      (fun p => "- " ++ p.1 ++ ": " ++ toString p.2 ++ " risk" ++ pluralS p.2 ++ "\n")) ++
    "\n" ++
    "**Severity Statistics:**\n" ++
    "- Mean Severity: " ++
    formatFixedInt ((all_risks.map (fun r => r.severity)).sum) all_risks.length 2 ++ "\n" ++
    "- Maximum Severity: " ++ toString (maxSeverity (all_risks.map (fun r => r.severity))) ++ "\n" ++
    "- High Severity Risks (â‰¥15): " ++
    toString (all_risks.filter (fun r => r.severity ≥ 15)).length ++ "\n\n"
  else
    "**Total Risks Identified:** 0\n\n" ++
    "*Note: No lifecycle risks have been registered yet. Risk register population is recommended " ++
    "for all systems, particularly those in TIER_1.*\n\n") ++
  "## Top Risks by Severity (Across All Systems)\n\n" ++
  (if !all_risks.isEmpty then
    "The following represents the highest-severity risks identified across our AI system portfolio. " ++
    "These risks require immediate attention and should be prioritized in mitigation planning.\n\n" ++
    String.join (((sortRisksBySeverityDesc all_risks).take 5).enum.map
      (fun p => topRiskBlock all_systems_metadata (p.1 + 1) p.2))
  else
    "No risks have been registered in the system. It is strongly recommended to populate the " ++
    "lifecycle risk register for all AI systems, especially those classified as TIER_1.\n\n") ++
  "## Key Findings & Recommendations\n\n" ++
  (let systems_with_risks := (uniqueInOrder (all_risks.map (fun r => r.system_id))).length
   let systems_without_risks := all_systems_metadata.length - systems_with_risks
   if systems_without_risks > 0 then
     "- **Action Required:** " ++ toString systems_without_risks ++ " system" ++
     pluralS systems_without_risks ++ " " ++
     "currently lack lifecycle risk register entries. Risk assessment should be completed for all systems.\n"
   else "") ++
  (let tier1_count := countOcc tierValues "TIER_1"
   if tier1_count > 0 then
     "- **High-Risk Systems:** " ++ toString tier1_count ++ " TIER_1 system" ++
     pluralS tier1_count ++ " " ++
     "require comprehensive governance controls including independent validation, full documentation, " ++
     "security testing, and continuous monitoring.\n"
   else "") ++
  (let systems_with_external_deps :=
     (all_systems_metadata.filter (fun s => !s.external_dependencies.isEmpty)).length
   if systems_with_external_deps > 0 then
     "- **Vendor Risk:** " ++ toString systems_with_external_deps ++ " system" ++
     pluralS systems_with_external_deps ++ " " ++
     "rely on external dependencies. Vendor risk assessments and contingency plans should be maintained.\n"
   else "") ++
  "- **Regular Review:** Risk tiering and lifecycle risk assessments should be reviewed quarterly or " ++
  "whenever significant system changes occur.\n" ++
  "- **Control Implementation:** Verify that all required controls for each risk tier are implemented " ++
  "and functioning as intended.\n" ++
  "- **Evidence Collection:** Maintain comprehensive evidence of control effectiveness for audit and " ++
  "compliance purposes.\n\n" ++
  "---\n\n" ++
  "*This executive summary is auto-generated based on the current state of the AI system inventory " ++
  "and risk register as of the generation timestamp. For detailed technical information, refer to the " ++
  "accompanying artifacts: model_inventory.csv, risk_tiering.json, and lifecycle_risk_map.json.*\n"

/-- An entry of the `artifacts` list: `{"name": ..., "path": ..., "sha256": ...}`. -/
structure ArtifactRecord where
  name : String
  path : String
  sha256 : String
deriving DecidableEq, Repr, Inhabited

def artifactJson (a : ArtifactRecord) : Json :=
  mkObj [("name", .str a.name), ("path", .str a.path), ("sha256", .str a.sha256)]

/-- The `manifest_data` dictionary (`source.py` lines 965-974). -/
structure ManifestData where
  run_id : String
  generated_at : String
  team_or_user : String
  app_version : String
  inputs_hash : String
  outputs_hash : String
  artifacts : List ArtifactRecord
deriving DecidableEq, Repr, Inhabited

def manifestJson (m : ManifestData) : Json :=
  mkObj [("run_id", .str m.run_id),
         ("generated_at", .str m.generated_at),
         ("team_or_user", .str m.team_or_user),
         ("app_version", .str m.app_version),
         ("inputs_hash", .str m.inputs_hash),
         ("outputs_hash", .str m.outputs_hash),
         ("artifacts", .arr (m.artifacts.map artifactJson))]

def insertStrSorted (x : String) : List String → List String
  | [] => [x]
  | y :: rest => if strLt y x then y :: insertStrSorted x rest else x :: y :: rest

/-- Python `sorted` on strings (lexicographic by code point). -/
def sortStrings : List String → List String
  | [] => []
  | x :: rest => insertStrSorted x (sortStrings rest)

def insertArtifactSorted (a : ArtifactRecord) : List ArtifactRecord → List ArtifactRecord
  | [] => [a]
  | b :: rest => if strLt b.name a.name then b :: insertArtifactSorted a rest else a :: b :: rest

/-- `sorted(artifacts, key=lambda x: x['name'])`. -/
def sortArtifacts : List ArtifactRecord → List ArtifactRecord
  | [] => []
  | a :: rest => insertArtifactSorted a (sortArtifacts rest)

/-- Everything `generate_evidence_package` writes (minus the zip bundling,
which copies the same bytes): the five artifact contents, the manifest
structure and the manifest file content. -/
structure EvidencePackage where
  inventory_csv : String
  tiering_json : String
  risk_map_json : String
  summary_md : String
  config_json : String
  manifest : ManifestData
  manifest_content : String
deriving DecidableEq, Repr, Inhabited

/-- `generate_evidence_package` (`source.py` lines 650-999) with the default
`output_dir_base="reports/case1"`.  The two `datetime.now()` readings — one
embedded in the executive summary (line 746) and one in the manifest
(line 967) — are explicit parameters.  When the systems store is empty,
`systems_df['external_dependencies']` raises `KeyError` on the column-less
`pd.DataFrame([])` and the run aborts; this is the `Except.error` branch. -/
def generate_evidence_package (run_id team_or_user : String) (stores : Stores)
    (summary_generated_at manifest_generated_at : String) :
    Except String EvidencePackage :=
  let output_run_dir := "reports/case1/" ++ run_id
  let all_systems_metadata := get_all_systems stores.systems
  if all_systems_metadata.isEmpty then
    Except.error "KeyError: external_dependencies"
  else
    -- 1. model_inventory.csv
    let inventory_content := model_inventory_csv all_systems_metadata
    let inventory_hash := compute_sha256 inventory_content
    -- 2. risk_tiering.json
    let tiering_content := risk_tiering_json all_systems_metadata stores.tiering
    let tiering_hash := compute_sha256 tiering_content
    -- 3. lifecycle_risk_map.json
    let risk_map_content := lifecycle_risk_map_json all_systems_metadata stores.risks
    let risk_map_hash := compute_sha256 risk_map_content
    -- 4. case1_executive_summary.md
    let summary_content := case1_executive_summary_md run_id summary_generated_at
      team_or_user all_systems_metadata stores.tiering stores.risks
    let summary_hash := compute_sha256 summary_content
    -- 5. config_snapshot.json
    let config_content := config_snapshot_json
    let config_hash := compute_sha256 config_content
    -- artifact_hashes accumulates in generation order
    let artifact_hashes : List (String × String) :=
      [("model_inventory.csv", inventory_hash),
       ("risk_tiering.json", tiering_hash),
       ("lifecycle_risk_map.json", risk_map_hash),
       ("case1_executive_summary.md", summary_hash),
       ("config_snapshot.json", config_hash)]
    let artifacts : List ArtifactRecord :=
      [⟨"model_inventory.csv", output_run_dir ++ "/model_inventory.csv", inventory_hash⟩,
       ⟨"risk_tiering.json", output_run_dir ++ "/risk_tiering.json", tiering_hash⟩,
       ⟨"lifecycle_risk_map.json", output_run_dir ++ "/lifecycle_risk_map.json", risk_map_hash⟩,
       ⟨"case1_executive_summary.md", output_run_dir ++ "/case1_executive_summary.md", summary_hash⟩,
       ⟨"config_snapshot.json", output_run_dir ++ "/config_snapshot.json", config_hash⟩]
    -- inputs_hash
    let inputs_hash_data := mkObj
      [("case", .str "case1"),
       ("systems_count", .int (all_systems_metadata.length : Int)),
       ("config_snapshot_hash", .str config_hash)]
    let inputs_hash_val := compute_sha256 (to_deterministic_json inputs_hash_data)
    -- outputs_hash: digests concatenated in sorted artifact-name order
    let sorted_artifact_names := sortStrings (artifact_hashes.map Prod.fst)
    let outputs_hash_concat_string :=
      String.join (sorted_artifact_names.map (fun name => (dictGet name artifact_hashes).getD ""))
    let outputs_hash_val := compute_sha256 outputs_hash_concat_string
    -- 6. evidence_manifest.json
    let manifest_data : ManifestData :=
      ⟨run_id, manifest_generated_at, team_or_user, CONFIG_app_version,
       inputs_hash_val, outputs_hash_val, sortArtifacts artifacts⟩
    let manifest_content := to_deterministic_json (manifestJson manifest_data)
    Except.ok ⟨inventory_content, tiering_content, risk_map_content, summary_content,
      config_content, manifest_data, manifest_content⟩

/-! ## Concrete fixtures used by witnesses and counterexamples -/

/-- Scores exactly 22 (= TIER_1_MIN): 5+5+5+3+2 plus one non-matching
dependency (bracket score 2). -/
def sysScore22 : SystemMetadata :=
  { system_id := "00000000-0000-4000-8000-000000000001", name := "Credit Scoring Model",
    description := "Scores consumer credit applications.", domain := "Finance",
    ai_type := .ML, owner_role := "Risk Team", deployment_mode := .BATCH,
    decision_criticality := .HIGH, automation_level := .FULLY_AUTOMATED,
    data_sensitivity := .REGULATED_PII, external_dependencies := ["Internal CRM API"],
    updated_at := "2024-01-01T00:00:00+00:00" }

/-- Scores exactly 21 (= TIER_1_MIN - 1): 5+5+5+4+2 and no dependencies. -/
def sysScore21 : SystemMetadata :=
  { system_id := "00000000-0000-4000-8000-000000000002", name := "Claims Triage LLM",
    description := "Summarizes insurance claims.", domain := "Insurance",
    ai_type := .LLM, owner_role := "Claims Team", deployment_mode := .BATCH,
    decision_criticality := .HIGH, automation_level := .FULLY_AUTOMATED,
    data_sensitivity := .REGULATED_PII, external_dependencies := [],
    updated_at := "2024-01-01T00:00:00+00:00" }

/-- Scores exactly 15 (= TIER_2_MIN): 5+2+3+3+2 and no dependencies. -/
def sysScore15 : SystemMetadata :=
  { system_id := "00000000-0000-4000-8000-000000000003", name := "Demand Forecaster",
    description := "Forecasts weekly product demand.", domain := "Supply Chain",
    ai_type := .ML, owner_role := "Planning Team", deployment_mode := .BATCH,
    decision_criticality := .HIGH, automation_level := .HUMAN_APPROVAL,
    data_sensitivity := .INTERNAL, external_dependencies := [],
    updated_at := "2024-01-01T00:00:00+00:00" }

/-- Scores 7 (< TIER_2_MIN): 1+1+1+3+1 and no dependencies. -/
def sysScore7 : SystemMetadata :=
  { system_id := "00000000-0000-4000-8000-000000000004", name := "Doc Classifier",
    description := "Tags internal documents.", domain := "Operations",
    ai_type := .ML, owner_role := "Ops Team", deployment_mode := .INTERNAL_ONLY,
    decision_criticality := .LOW, automation_level := .ADVISORY,
    data_sensitivity := .PUBLIC, external_dependencies := [],
    updated_at := "2024-01-01T00:00:00+00:00" }

/-- A fixed timestamp used where the value is irrelevant. -/
def t0 : String := "2024-01-01T00:00:00+00:00"

/-- A system id that is never present in any fixture systems store. -/
def missingId : String := "99999999-0000-4000-8000-000000000099"

/-- A lifecycle risk referencing `sysScore22` (severity 4*3 = 12). -/
def riskA : LifecycleRiskEntry :=
  { risk_id := "10000000-0000-4000-8000-000000000001",
    system_id := "00000000-0000-4000-8000-000000000001",
    lifecycle_phase := .DATA, risk_vector := .SECURITY,
    risk_statement := "Training data may leak sensitive attributes.",
    impact := 4, likelihood := 3, severity := 12,
    mitigation := "Apply masking before training.", owner_role := "Security Team",
    evidence_links := [], created_at := "2024-01-01T00:00:00+00:00" }

/-- An orphaned lifecycle risk referencing `missingId` (severity 2*2 = 4). -/
def riskOrphan : LifecycleRiskEntry :=
  { risk_id := "10000000-0000-4000-8000-000000000002",
    system_id := "99999999-0000-4000-8000-000000000099",
    lifecycle_phase := .OPERATIONS, risk_vector := .OPERATIONAL,
    risk_statement := "Orphaned monitoring gap.",
    impact := 2, likelihood := 2, severity := 4,
    mitigation := "", owner_role := "Ops Team",
    evidence_links := [], created_at := "2024-01-01T00:00:00+00:00" }

/-- A copy of `sysScore22` carrying `missingId`, used only to build an
orphaned tiering entry. -/
def sysMissing : SystemMetadata :=
  { sysScore22 with system_id := "99999999-0000-4000-8000-000000000099" }

/-- An orphaned tiering result keyed by `missingId`. -/
def tieringOrphan : TieringResult :=
  calculate_risk_tier sysMissing t0

/-- Fixture for `delete_system` on a missing id: the systems store does not
contain `missingId`, but the risks and tiering stores hold orphaned entries
for it. -/
def c8Stores : Stores :=
  { systems := [("00000000-0000-4000-8000-000000000001", sysScore22)],
    tiering := [("99999999-0000-4000-8000-000000000099", tieringOrphan)],
    risks := [("10000000-0000-4000-8000-000000000002", riskOrphan)] }

/-- One-entry risks store for the update witness. -/
def cRiskStore : List (String × LifecycleRiskEntry) :=
  [("10000000-0000-4000-8000-000000000001", riskA)]

/-- A partial update touching only `impact`. -/
def cUpdates : RiskUpdates :=
  { impact := some 5 }

/-- `riskA` after `cUpdates`: severity recomputed to 5*3 = 15. -/
def cUpdatedRisk : LifecycleRiskEntry :=
  { riskA with impact := 5, severity := 15 }

/-- A stale record stored under `sysScore22`'s id, to exercise upsert. -/
def sysOld : SystemMetadata :=
  { sysScore22 with name := "Old Credit Scoring Model" }

/-- Systems store already containing a binding for `sysScore22.system_id`. -/
def cSystems10 : List (String × SystemMetadata) :=
  [("00000000-0000-4000-8000-000000000001", sysOld)]

/-- Store snapshot for the evidence-package fixtures: one system, no tiering
results, no risks. -/
def cStores4 : Stores :=
  { systems := [("00000000-0000-4000-8000-000000000001", sysScore22)],
    tiering := [], risks := [] }

/-- Two distinct `datetime.now()` readings. -/
def ta : String := "2024-01-01T00:00:00+00:00"

def tb : String := "2024-01-02T00:00:00+00:00"

/-- Manifest-side timestamp. -/
def tm : String := "2024-01-01T00:00:05+00:00"

/-- Total extraction of a successful package (used to instantiate theorems at
concrete runs; the fixtures below always take the `ok` branch). -/
def pkgOf (x : Except String EvidencePackage) : EvidencePackage :=
  match x with
  | .ok p => p
  | .error _ => default

/-- Decidable equality for `Except` results (used to evaluate the outcomes of
`delete_system` and `generate_evidence_package` at concrete inputs). -/
instance {α β : Type} [DecidableEq α] [DecidableEq β] : DecidableEq (Except α β) := fun a b =>
  match a, b with
  | .ok x, .ok y =>
    if h : x = y then isTrue (by rw [h]) else isFalse (fun hc => by cases hc; exact h rfl)
  | .error x, .error y =>
    if h : x = y then isTrue (by rw [h]) else isFalse (fun hc => by cases hc; exact h rfl)
  | .ok _, .error _ => isFalse (fun hc => by cases hc)
  | .error _, .ok _ => isFalse (fun hc => by cases hc)

/-! ## Helper lemmas -/

/-- The break-on-first-match scan equals a single conditional bonus. -/
theorem addVendorBonus_eq (deps : List String) (base : Int) :
    addVendorBonus deps base =
      base + (if deps.any depMatchesVendorKeyword then vendor_bonus else 0) := by
  induction deps with
  | nil => simp [addVendorBonus]
  | cons d rest ih =>
    by_cases h : depMatchesVendorKeyword d
    · simp [addVendorBonus, h]
    · simp [addVendorBonus, h, ih]

/-- `dictGet` after `dictSet` at the same key. -/
theorem dictGet_dictSet_self {α : Type} (k : String) (v : α) (d : List (String × α)) :
    dictGet k (dictSet k v d) = some v := by
  induction d with
  | nil => simp [dictGet, dictSet]
  | cons p rest ih =>
    by_cases h : p.1 = k
    · simp [dictSet, dictGet, h]
    · simp [dictSet, dictGet, h, ih]

/-- `dictSet` of a present key preserves the key sequence. -/
theorem dictSet_keys_of_contains {α : Type} (k : String) (v : α) (d : List (String × α))
    (h : dictContains k d = true) :
    (dictSet k v d).map Prod.fst = d.map Prod.fst := by
  induction d with
  | nil => simp [dictContains] at h
  | cons p rest ih =>
    by_cases hk : p.1 = k
    · simp [dictSet, hk]
    · have h' : dictContains k rest = true := by
        simp [dictContains] at h ⊢
        rcases h with h | h
        · exact absurd h.symm hk
        · exact h
      simp [dictSet, hk, ih h']

/-- `mkLifecycleRiskEntry` output always satisfies the severity derivation. -/
theorem mk_entry_severity (rid sid : String) (lp : LifecyclePhase) (rv : RiskVector)
    (stmt : String) (impact likelihood sev : Int) (mit owner : String)
    (links : List String) (created : String) (e : LifecycleRiskEntry)
    (h : mkLifecycleRiskEntry rid sid lp rv stmt impact likelihood sev mit owner links created
      = some e) :
    e.severity = e.impact * e.likelihood := by
  unfold mkLifecycleRiskEntry at h
  split at h
  · cases h
    rfl
  · cases h

/-! ## C1 -/

/-- C1: for every `SystemMetadata`, the `TieringResult` returned by
`calculate_risk_tier` satisfies `total_score = sum(score_breakdown.values())`
exactly, and two invocations on the same system and (fixed) configuration —
differing only in the `computed_at` clock reading — return identical
`total_score`, `risk_tier` and `score_breakdown`. -/
theorem tiering_total_is_breakdown_sum_and_deterministic
    (s : SystemMetadata) (t1 t2 : String) :
    (calculate_risk_tier s t1).total_score =
      ((calculate_risk_tier s t1).score_breakdown.map Prod.snd).sum ∧
    (calculate_risk_tier s t1).total_score = (calculate_risk_tier s t2).total_score ∧
    (calculate_risk_tier s t1).risk_tier = (calculate_risk_tier s t2).risk_tier ∧
    (calculate_risk_tier s t1).score_breakdown = (calculate_risk_tier s t2).score_breakdown := by
  refine ⟨?_, rfl, rfl, rfl⟩
  simp [calculate_risk_tier]
  ring

/-! ## C2 -/

/-- C2: the opaque-vendor bonus enters the `external_dependencies` entry of
the score breakdown exactly once when at least one dependency matches a
configured keyword (case-insensitively), and never more than once: the entry
always equals the count-bracket base plus a single conditional bonus,
regardless of how many dependencies match. -/
theorem vendor_bonus_added_exactly_once (s : SystemMetadata) (t : String) :
    dictGet "external_dependencies" (calculate_risk_tier s t).score_breakdown =
      some (baseDepScore s.external_dependencies.length +
        (if s.external_dependencies.any depMatchesVendorKeyword then vendor_bonus else 0)) := by
  simp [calculate_risk_tier, dictGet, addVendorBonus_eq]

/-! ## C3 -/

/-- C3: tier assignment uses inclusive lower-bound thresholds checked in
descending order: a total score of exactly `TIER_1_MIN` gives TIER_1, one
point below `TIER_1_MIN` gives TIER_2 (such a score is automatically at least
`TIER_2_MIN`), exactly `TIER_2_MIN` gives TIER_2 and never TIER_3, anything
below `TIER_2_MIN` gives TIER_3; more generally the three threshold ranges
map to the three tiers. -/
theorem tier_assignment_thresholds (s : SystemMetadata) (t : String) :
    ((calculate_risk_tier s t).total_score ≥ TIER_1_MIN →
      (calculate_risk_tier s t).risk_tier = RiskTier.TIER_1) ∧
    (TIER_2_MIN ≤ (calculate_risk_tier s t).total_score ∧
        (calculate_risk_tier s t).total_score < TIER_1_MIN →
      (calculate_risk_tier s t).risk_tier = RiskTier.TIER_2) ∧
    ((calculate_risk_tier s t).total_score < TIER_2_MIN →
      (calculate_risk_tier s t).risk_tier = RiskTier.TIER_3) ∧
    ((calculate_risk_tier s t).total_score = TIER_1_MIN →
      (calculate_risk_tier s t).risk_tier = RiskTier.TIER_1) ∧
    ((calculate_risk_tier s t).total_score = TIER_1_MIN - 1 →
      (calculate_risk_tier s t).risk_tier = RiskTier.TIER_2) ∧
    ((calculate_risk_tier s t).total_score = TIER_2_MIN →
      (calculate_risk_tier s t).risk_tier = RiskTier.TIER_2 ∧
      (calculate_risk_tier s t).risk_tier ≠ RiskTier.TIER_3) := by
  have h : (calculate_risk_tier s t).risk_tier =
      (if (calculate_risk_tier s t).total_score ≥ TIER_1_MIN then RiskTier.TIER_1
       else if (calculate_risk_tier s t).total_score ≥ TIER_2_MIN then RiskTier.TIER_2
       else RiskTier.TIER_3) := rfl
  rw [h]
  generalize (calculate_risk_tier s t).total_score = x
  simp only [TIER_1_MIN, TIER_2_MIN]
  refine ⟨?_, ?_, ?_, ?_, ?_, ?_⟩ <;> intro hx <;> split_ifs <;>
    first
    | rfl
    | omega
    | exact ⟨rfl, by simp⟩

/-- Witness for C3 at the four boundary scores 22, 21, 15 and 7. -/
theorem tier_assignment_thresholds_witness :
    ((calculate_risk_tier sysScore22 t0).total_score = TIER_1_MIN ∧
      (calculate_risk_tier sysScore22 t0).risk_tier = RiskTier.TIER_1) ∧
    ((calculate_risk_tier sysScore21 t0).total_score = TIER_1_MIN - 1 ∧
      (calculate_risk_tier sysScore21 t0).risk_tier = RiskTier.TIER_2) ∧
    ((calculate_risk_tier sysScore15 t0).total_score = TIER_2_MIN ∧
      (calculate_risk_tier sysScore15 t0).risk_tier = RiskTier.TIER_2 ∧
      (calculate_risk_tier sysScore15 t0).risk_tier ≠ RiskTier.TIER_3) ∧
    ((calculate_risk_tier sysScore7 t0).total_score < TIER_2_MIN ∧
      (calculate_risk_tier sysScore7 t0).risk_tier = RiskTier.TIER_3) :=
  ⟨⟨by decide, (tier_assignment_thresholds sysScore22 t0).2.2.2.1 (by decide)⟩,
   ⟨by decide, (tier_assignment_thresholds sysScore21 t0).2.2.2.2.1 (by decide)⟩,
   ⟨by decide, (tier_assignment_thresholds sysScore15 t0).2.2.2.2.2 (by decide)⟩,
   ⟨by decide, (tier_assignment_thresholds sysScore7 t0).2.2.1 (by decide)⟩⟩

/-! ## C9 -/

/-- C9 counterexample: at a concrete system the score breakdown has exactly
six keys (the five `point_mappings` dimensions plus `external_dependencies`),
not the seven keys the claim asserts. -/
theorem breakdown_has_six_keys_not_seven :
    ((calculate_risk_tier sysScore7 t0).score_breakdown.map Prod.fst).length = 6 ∧
    ¬ ((calculate_risk_tier sysScore7 t0).score_breakdown.map Prod.fst).length = 7 := by
  decide

/-- C9 (amended): for every `SystemMetadata`, the key sequence of
`score_breakdown` is exactly the five configured classification dimensions
followed by `external_dependencies` — six keys in total — and each key maps
to that dimension's integer point contribution. -/
theorem breakdown_keys_and_contributions (s : SystemMetadata) (t : String) :
    (calculate_risk_tier s t).score_breakdown.map Prod.fst =
      ["decision_criticality", "data_sensitivity", "automation_level", "ai_type",
       "deployment_mode", "external_dependencies"] ∧
    dictGet "decision_criticality" (calculate_risk_tier s t).score_breakdown =
      some (points_decision_criticality s.decision_criticality) ∧
    dictGet "data_sensitivity" (calculate_risk_tier s t).score_breakdown =
      some (points_data_sensitivity s.data_sensitivity) ∧
    dictGet "automation_level" (calculate_risk_tier s t).score_breakdown =
      some (points_automation_level s.automation_level) ∧
    dictGet "ai_type" (calculate_risk_tier s t).score_breakdown =
      some (points_ai_type s.ai_type) ∧
    dictGet "deployment_mode" (calculate_risk_tier s t).score_breakdown =
      some (points_deployment_mode s.deployment_mode) ∧
    dictGet "external_dependencies" (calculate_risk_tier s t).score_breakdown =
      some (addVendorBonus s.external_dependencies
        (baseDepScore s.external_dependencies.length)) := by
  refine ⟨rfl, ?_, ?_, ?_, ?_, ?_, ?_⟩ <;> rfl

/-! ## C7 -/

/-- C7: `severity` equals `impact * likelihood` immediately after every
successful construction of a `LifecycleRiskEntry` and immediately after every
successful `update_lifecycle_risk` — including a partial update that supplies
only `impact` or only `likelihood` — so the create/update operations can never
leave a stale stored severity observable in the store. -/
theorem severity_always_derived :
    (∀ (rid sid : String) (lp : LifecyclePhase) (rv : RiskVector) (stmt : String)
        (impact likelihood sev : Int) (mit owner : String) (links : List String)
        (created : String) (e : LifecycleRiskEntry),
      mkLifecycleRiskEntry rid sid lp rv stmt impact likelihood sev mit owner links created
        = some e →
      e.severity = e.impact * e.likelihood) ∧
    (∀ (risk_id : String) (updates : RiskUpdates)
        (risks : List (String × LifecycleRiskEntry)) (e : LifecycleRiskEntry),
      (update_lifecycle_risk risk_id updates risks).1 = true →
      dictGet risk_id (update_lifecycle_risk risk_id updates risks).2 = some e →
      e.severity = e.impact * e.likelihood) := by
  constructor
  · intro rid sid lp rv stmt impact likelihood sev mit owner links created e h
    exact mk_entry_severity rid sid lp rv stmt impact likelihood sev mit owner links created e h
  · intro risk_id updates risks e hflag hget
    unfold update_lifecycle_risk at hflag hget
    cases hcur : dictGet risk_id risks with
    | none => rw [hcur] at hflag; cases hflag
    | some current_risk =>
      rw [hcur] at hflag hget
      simp only at hflag hget
      cases hmk : mkLifecycleRiskEntry current_risk.risk_id current_risk.system_id
          (updates.lifecycle_phase.getD current_risk.lifecycle_phase)
          (updates.risk_vector.getD current_risk.risk_vector)
          (updates.risk_statement.getD current_risk.risk_statement)
          (updates.impact.getD current_risk.impact)
          (updates.likelihood.getD current_risk.likelihood)
          (if updates.impact.isSome ∨ updates.likelihood.isSome then
            (updates.impact.getD current_risk.impact) *
              (updates.likelihood.getD current_risk.likelihood)
           else updates.severity.getD current_risk.severity)
          (updates.mitigation.getD current_risk.mitigation)
          (updates.owner_role.getD current_risk.owner_role)
          (updates.evidence_links.getD current_risk.evidence_links)
          current_risk.created_at with
      | none => rw [hmk] at hflag; cases hflag
      | some updated_risk =>
        rw [hmk] at hget
        simp only [dictGet_dictSet_self] at hget
        cases hget
        exact mk_entry_severity _ _ _ _ _ _ _ _ _ _ _ _ _ hmk

/-- Witness for C7: constructing a concrete entry and applying a concrete
partial update (only `impact` changes) both land with
`severity = impact * likelihood`. -/
theorem severity_always_derived_witness :
    (mkLifecycleRiskEntry "10000000-0000-4000-8000-000000000001"
        "00000000-0000-4000-8000-000000000001" .DATA .SECURITY
        "Training data may leak sensitive attributes." 4 3 0
        "Apply masking before training." "Security Team" []
        "2024-01-01T00:00:00+00:00" = some riskA) ∧
    riskA.severity = riskA.impact * riskA.likelihood ∧
    (update_lifecycle_risk "10000000-0000-4000-8000-000000000001" cUpdates cRiskStore).1
      = true ∧
    dictGet "10000000-0000-4000-8000-000000000001"
      (update_lifecycle_risk "10000000-0000-4000-8000-000000000001" cUpdates cRiskStore).2
      = some cUpdatedRisk ∧
    cUpdatedRisk.severity = cUpdatedRisk.impact * cUpdatedRisk.likelihood :=
  ⟨by decide,
   severity_always_derived.1 "10000000-0000-4000-8000-000000000001"
     "00000000-0000-4000-8000-000000000001" .DATA .SECURITY
     "Training data may leak sensitive attributes." 4 3 0
     "Apply masking before training." "Security Team" []
     "2024-01-01T00:00:00+00:00" riskA (by decide),
   by decide,
   by decide,
   severity_always_derived.2 "10000000-0000-4000-8000-000000000001" cUpdates cRiskStore
     cUpdatedRisk (by decide) (by decide)⟩

/-! ## C10 -/

/-- C10: for every prior systems store, `add_system s` followed by
`get_system s.system_id` returns `s`; and when the id is already bound,
`add_system` silently replaces the existing record in place (upsert), leaving
the key sequence unchanged rather than failing or duplicating. -/
theorem add_system_get_system_upsert (systems : List (String × SystemMetadata))
    (s : SystemMetadata) :
    get_system s.system_id (add_system s systems) = some s ∧
    (dictContains s.system_id systems = true →
      (add_system s systems).map Prod.fst = systems.map Prod.fst) := by
  refine ⟨dictGet_dictSet_self s.system_id s systems, ?_⟩
  intro h
  exact dictSet_keys_of_contains s.system_id s systems h

/-- Witness for C10: adding `sysScore22` over a store that already binds its
id replaces the stale record and preserves the key sequence. -/
theorem add_system_get_system_upsert_witness :
    dictContains sysScore22.system_id cSystems10 = true ∧
    get_system sysScore22.system_id (add_system sysScore22 cSystems10) = some sysScore22 ∧
    (add_system sysScore22 cSystems10).map Prod.fst = cSystems10.map Prod.fst :=
  ⟨by decide,
   (add_system_get_system_upsert cSystems10 sysScore22).1,
   (add_system_get_system_upsert cSystems10 sysScore22).2 (by decide)⟩

/-! ## Association-list lemmas for `delete_system` -/

/-- Removing an absent key is the identity. -/
theorem dictRemove_of_not_contains {α : Type} (k : String) (d : List (String × α))
    (h : dictContains k d = false) : dictRemove k d = d := by
  induction d with
  | nil => rfl
  | cons p rest ih =>
    simp only [dictContains, List.map_cons, List.contains_cons, Bool.or_eq_false_iff,
      beq_eq_false_iff_ne, ne_eq] at h
    have hk : ¬ p.1 = k := fun hc => h.1 hc.symm
    simp [dictRemove, hk, ih h.2]

/-- Keys of `dictRemove` form a sublist of the original keys. -/
theorem dictRemove_keys_sublist {α : Type} (k : String) (d : List (String × α)) :
    ((dictRemove k d).map Prod.fst).Sublist (d.map Prod.fst) := by
  induction d with
  | nil => simp [dictRemove]
  | cons p rest ih =>
    by_cases hk : p.1 = k
    · have he : dictRemove k (p :: rest) = rest := by simp [dictRemove, hk]
      rw [he, List.map_cons]
      exact List.sublist_cons_self _ _
    · have he : dictRemove k (p :: rest) = p :: dictRemove k rest := by simp [dictRemove, hk]
      rw [he, List.map_cons, List.map_cons]
      exact ih.cons₂ p.1

/-- With no duplicate keys, removing a key is filtering it out. -/
theorem dictRemove_eq_filter {α : Type} (k : String) (d : List (String × α))
    (h : (d.map Prod.fst).Nodup) :
    dictRemove k d = d.filter (fun p => !decide (p.1 = k)) := by
  induction d with
  | nil => rfl
  | cons p rest ih =>
    simp only [List.map_cons, List.nodup_cons] at h
    by_cases hk : p.1 = k
    · have hrest : rest.filter (fun p => !decide (p.1 = k)) = rest := by
        apply List.filter_eq_self.mpr
        intro q hq
        simp only [Bool.not_eq_true', decide_eq_false_iff_not]
        intro hqk
        have hm : q.1 ∈ rest.map Prod.fst := List.mem_map.mpr ⟨q, hq, rfl⟩
        rw [hqk, ← hk] at hm
        exact h.1 hm
      simp [dictRemove, hk, List.filter_cons, hrest]
    · simp [dictRemove, hk, List.filter_cons, ih h.2]

/-- Two bindings of a duplicate-free association list with the same key are
the same binding. -/
theorem key_unique {α : Type} (d : List (String × α)) (h : (d.map Prod.fst).Nodup) :
    ∀ p ∈ d, ∀ q ∈ d, p.1 = q.1 → p = q := by
  induction d with
  | nil => intro p hp; cases hp
  | cons r rest ih =>
    simp only [List.map_cons, List.nodup_cons] at h
    intro p hp q hq hpq
    rcases List.mem_cons.mp hp with hp | hp <;> rcases List.mem_cons.mp hq with hq | hq
    · rw [hp, hq]
    · exfalso
      exact h.1 (hp ▸ hpq ▸ List.mem_map.mpr ⟨q, hq, rfl⟩)
    · exfalso
      exact h.1 (hq ▸ hpq.symm ▸ List.mem_map.mpr ⟨p, hp, rfl⟩)
    · exact ih h.2 p hp q hq hpq

/-- Deleting a list of keys from a duplicate-free association list filters
out exactly those keys. -/
theorem foldl_dictRemove_eq_filter {α : Type} (ids : List String)
    (d : List (String × α)) (h : (d.map Prod.fst).Nodup) :
    ids.foldl (fun acc k => dictRemove k acc) d =
      d.filter (fun p => !(ids.contains p.1)) := by
  induction ids generalizing d with
  | nil => simp
  | cons k ids' ih =>
    have hnd : ((dictRemove k d).map Prod.fst).Nodup :=
      List.Nodup.sublist (dictRemove_keys_sublist k d) h
    rw [List.foldl_cons, ih (dictRemove k d) hnd, dictRemove_eq_filter k d h,
      List.filter_filter]
    apply List.filter_congr
    intro p hp
    simp only [List.contains, List.elem_eq_mem, List.mem_cons, Bool.not_eq_true',
      decide_eq_false_iff_not]
    by_cases h1 : p.1 = k <;> by_cases h2 : p.1 ∈ ids' <;> simp [h1, h2]

/-! ## C8 -/

/-- C8 counterexample: calling `delete_system` with an id absent from the
systems store, while the risks and tiering stores hold orphaned entries for
that id, reports the not-found error *and* mutates the stores: the orphaned
risk and tiering entries are deleted before the error is raised. -/
theorem delete_missing_system_partial_mutation :
    (delete_system missingId c8Stores).1 =
      Except.error ("Failed to delete system: System " ++ missingId ++ " not found") ∧
    (delete_system missingId c8Stores).2.risks = [] ∧
    ¬ c8Stores.risks = [] ∧
    (delete_system missingId c8Stores).2.tiering = [] ∧
    ¬ c8Stores.tiering = [] ∧
    ¬ (delete_system missingId c8Stores).2 = c8Stores := by
  decide

/-- C8 (amended): `delete_system` on an id absent from the systems store
reports the not-found error and leaves the systems store untouched, but it
first deletes every lifecycle risk referencing that id and the tiering entry
for it; the three stores are all unchanged only when no such orphaned entries
exist. -/
theorem delete_missing_system_behaviour (system_id : String) (st : Stores)
    (hmiss : dictContains system_id st.systems = false)
    (hnr : (st.risks.map Prod.fst).Nodup) :
    (delete_system system_id st).1 =
      Except.error ("Failed to delete system: System " ++ system_id ++ " not found") ∧
    (delete_system system_id st).2.systems = st.systems ∧
    (delete_system system_id st).2.tiering = dictRemove system_id st.tiering ∧
    (delete_system system_id st).2.risks =
      st.risks.filter (fun p => !decide (p.2.system_id = system_id)) ∧
    ((∀ p ∈ st.risks, ¬ p.2.system_id = system_id) →
      dictContains system_id st.tiering = false →
      (delete_system system_id st).2 = st) := by
  have hrisks : (delete_system system_id st).2.risks =
      st.risks.filter (fun p => !decide (p.2.system_id = system_id)) := by
    simp only [delete_system, hmiss]
    rw [if_neg (by simp)]
    simp only
    rw [foldl_dictRemove_eq_filter _ _ hnr]
    apply List.filter_congr
    intro p hp
    by_cases hps : p.2.system_id = system_id
    · have hmem : p.1 ∈ ((st.risks.filter (fun q => decide (q.2.system_id = system_id))).map
          Prod.fst) :=
        List.mem_map.mpr ⟨p, List.mem_filter.mpr ⟨hp, by simpa using hps⟩, rfl⟩
      simp [List.contains, List.elem_eq_mem, hmem, hps]
    · have hmem : ¬ p.1 ∈ ((st.risks.filter (fun q => decide (q.2.system_id = system_id))).map
          Prod.fst) := by
        intro hc
        rcases List.mem_map.mp hc with ⟨q, hq, hqp⟩
        rcases List.mem_filter.mp hq with ⟨hqmem, hqsid⟩
        have hqe := key_unique st.risks hnr q hqmem p hp hqp
        rw [hqe] at hqsid
        exact hps (by simpa using hqsid)
      simp [List.contains, List.elem_eq_mem, hmem, hps]
  have htier : (delete_system system_id st).2.tiering = dictRemove system_id st.tiering := by
    simp only [delete_system, hmiss]
    rw [if_neg (by simp)]
    simp only
    by_cases hc : dictContains system_id st.tiering
    · simp [hc]
    · simp only [Bool.not_eq_true] at hc
      simp [hc, dictRemove_of_not_contains system_id st.tiering hc]
  have hsys : (delete_system system_id st).2.systems = st.systems := by
    simp only [delete_system, hmiss]
    rw [if_neg (by simp)]
  have herr : (delete_system system_id st).1 =
      Except.error ("Failed to delete system: System " ++ system_id ++ " not found") := by
    simp only [delete_system, hmiss]
    rw [if_neg (by simp)]
  refine ⟨herr, hsys, htier, hrisks, ?_⟩
  intro hnone htc
  have h1 : (delete_system system_id st).2.risks = st.risks := by
    rw [hrisks]
    apply List.filter_eq_self.mpr
    intro p hp
    simpa using hnone p hp
  have h2 : (delete_system system_id st).2.tiering = st.tiering := by
    rw [htier, dictRemove_of_not_contains system_id st.tiering htc]
  calc (delete_system system_id st).2
      = ⟨(delete_system system_id st).2.systems, (delete_system system_id st).2.tiering,
         (delete_system system_id st).2.risks⟩ := rfl
    _ = ⟨st.systems, st.tiering, st.risks⟩ := by rw [hsys, h1, h2]
    _ = st := rfl

/-- Witness for C8 (amended) at the orphaned-entry fixture. -/
theorem delete_missing_system_behaviour_witness :
    dictContains missingId c8Stores.systems = false ∧
    (c8Stores.risks.map Prod.fst).Nodup ∧
    (delete_system missingId c8Stores).1 =
      Except.error ("Failed to delete system: System " ++ missingId ++ " not found") ∧
    (delete_system missingId c8Stores).2.systems = c8Stores.systems ∧
    (delete_system missingId c8Stores).2.tiering = dictRemove missingId c8Stores.tiering ∧
    (delete_system missingId c8Stores).2.risks =
      c8Stores.risks.filter (fun p => !decide (p.2.system_id = missingId)) :=
  ⟨by decide, by decide,
   (delete_missing_system_behaviour missingId c8Stores (by decide) (by decide)).1,
   (delete_missing_system_behaviour missingId c8Stores (by decide) (by decide)).2.1,
   (delete_missing_system_behaviour missingId c8Stores (by decide) (by decide)).2.2.1,
   (delete_missing_system_behaviour missingId c8Stores (by decide) (by decide)).2.2.2.1⟩

/-! ## C6 -/

/-- C6 counterexample: for a system with zero registered risks,
`generate_risk_matrix` takes the early `if not risks:` return and produces the
empty frame (eight column labels, zero rows, zero cells), not a 56-cell grid. -/
theorem risk_matrix_zero_risks_not_56_cells :
    generate_risk_matrix missingId [] =
      RiskMatrix.emptyFrame (ALL_VECTORS.map RiskVector.value) ∧
    numCells (generate_risk_matrix missingId []) = 0 ∧
    ¬ numCells (generate_risk_matrix missingId []) = 56 :=
  ⟨rfl, rfl, by decide⟩

/-- C6 (amended): whenever the system has at least one registered risk,
`generate_risk_matrix` returns the complete 7-by-8 grid — 56 cells, one row
per lifecycle phase in declaration order — and the cell for every
phase-vector pair renders the count of matching risk entries together with
their maximum severity (count 0 and max severity 0 when no entry matches);
no cell is omitted.  With zero risks the early return produces an empty frame
instead. -/
theorem risk_matrix_complete_grid (system_id : String)
    (risks_store : List (String × LifecycleRiskEntry))
    (h : (get_risks_for_system system_id risks_store).isEmpty = false) :
    numCells (generate_risk_matrix system_id risks_store) = 56 ∧
    rowLabels (generate_risk_matrix system_id risks_store) =
      ALL_PHASES.map LifecyclePhase.value ∧
    (∀ (phase : LifecyclePhase) (vector : RiskVector),
      cellAt (generate_risk_matrix system_id risks_store) phase.value vector.value =
        some (cellString
          ((get_risks_for_system system_id risks_store).filter (fun r =>
            r.lifecycle_phase = phase ∧ r.risk_vector = vector)).length
          (if ((get_risks_for_system system_id risks_store).filter (fun r =>
              r.lifecycle_phase = phase ∧ r.risk_vector = vector)).length > 0 then
            maxSeverity (((get_risks_for_system system_id risks_store).filter (fun r =>
              r.lifecycle_phase = phase ∧ r.risk_vector = vector)).map (·.severity))
          else 0))) := by
  have h' : ¬ ((get_risks_for_system system_id risks_store).isEmpty = true) := by
    simp [h]
  refine ⟨?_, ?_, ?_⟩
  · simp [generate_risk_matrix, h, numCells, ALL_PHASES, ALL_VECTORS]
  · simp [generate_risk_matrix, h, rowLabels, ALL_PHASES]
  · intro phase vector
    simp only [generate_risk_matrix]
    rw [if_neg h']
    cases phase <;> cases vector <;> rfl

/-- Witness for C6 (amended): one registered risk yields the full 56-cell grid. -/
theorem risk_matrix_complete_grid_witness :
    (get_risks_for_system "00000000-0000-4000-8000-000000000001" cRiskStore).isEmpty = false ∧
    numCells (generate_risk_matrix "00000000-0000-4000-8000-000000000001" cRiskStore) = 56 ∧
    rowLabels (generate_risk_matrix "00000000-0000-4000-8000-000000000001" cRiskStore) =
      ALL_PHASES.map LifecyclePhase.value :=
  ⟨by decide,
   (risk_matrix_complete_grid "00000000-0000-4000-8000-000000000001" cRiskStore (by decide)).1,
   (risk_matrix_complete_grid "00000000-0000-4000-8000-000000000001" cRiskStore (by decide)).2.1⟩

/-! ## C4 -/

/-- C4 counterexample: two `generate_evidence_package` runs over the same
store state and the same run id, whose `datetime.now()` readings differ,
produce different bytes for `case1_executive_summary.md` — an artifact whose
digest feeds `outputs_hash` — because the summary embeds the generation
timestamp in its "Generated At" line. -/
theorem summary_bytes_differ_across_reruns :
    ¬ ta = tb ∧
    (generate_evidence_package "RUN1" "Alex" cStores4 ta tm).map (fun p => p.summary_md) ≠
      (generate_evidence_package "RUN1" "Alex" cStores4 tb tm).map (fun p => p.summary_md) := by
  constructor
  · decide
  · decide

/-- C4 (amended): re-running `generate_evidence_package` against unchanged
store state with the same run id reproduces `model_inventory.csv`,
`risk_tiering.json`, `lifecycle_risk_map.json` and `config_snapshot.json`
byte for byte (hence with identical digests), for any pair of clock readings;
`case1_executive_summary.md` is only reproduced when the two runs share the
same summary timestamp, since it embeds that timestamp; the manifest may also
differ. -/
theorem evidence_artifacts_stable_except_summary
    (run_id team_or_user : String) (st : Stores) (t1 tm1 t2 tm2 : String)
    (p q : EvidencePackage)
    (hp : generate_evidence_package run_id team_or_user st t1 tm1 = Except.ok p)
    (hq : generate_evidence_package run_id team_or_user st t2 tm2 = Except.ok q) :
    p.inventory_csv = q.inventory_csv ∧
    p.tiering_json = q.tiering_json ∧
    p.risk_map_json = q.risk_map_json ∧
    p.config_json = q.config_json ∧
    compute_sha256 p.inventory_csv = compute_sha256 q.inventory_csv ∧
    compute_sha256 p.tiering_json = compute_sha256 q.tiering_json ∧
    compute_sha256 p.risk_map_json = compute_sha256 q.risk_map_json ∧
    compute_sha256 p.config_json = compute_sha256 q.config_json ∧
    (t1 = t2 → p.summary_md = q.summary_md) := by
  by_cases he : (get_all_systems st.systems).isEmpty = true
  · rw [generate_evidence_package, if_pos he] at hp
    cases hp
  · rw [generate_evidence_package, if_neg he] at hp hq
    injection hp with hp
    injection hq with hq
    subst hp
    subst hq
    refine ⟨rfl, rfl, rfl, rfl, rfl, rfl, rfl, rfl, ?_⟩
    intro ht
    subst ht
    rfl

/-- Witness for C4 (amended) at the one-system fixture and two distinct
clock readings. -/
theorem evidence_artifacts_stable_except_summary_witness :
    (pkgOf (generate_evidence_package "RUN1" "Alex" cStores4 ta tm)).inventory_csv =
      (pkgOf (generate_evidence_package "RUN1" "Alex" cStores4 tb tm)).inventory_csv ∧
    (pkgOf (generate_evidence_package "RUN1" "Alex" cStores4 ta tm)).tiering_json =
      (pkgOf (generate_evidence_package "RUN1" "Alex" cStores4 tb tm)).tiering_json ∧
    (pkgOf (generate_evidence_package "RUN1" "Alex" cStores4 ta tm)).risk_map_json =
      (pkgOf (generate_evidence_package "RUN1" "Alex" cStores4 tb tm)).risk_map_json ∧
    (pkgOf (generate_evidence_package "RUN1" "Alex" cStores4 ta tm)).config_json =
      (pkgOf (generate_evidence_package "RUN1" "Alex" cStores4 tb tm)).config_json :=
  let thm := evidence_artifacts_stable_except_summary "RUN1" "Alex" cStores4 ta tm tb tm
    (pkgOf (generate_evidence_package "RUN1" "Alex" cStores4 ta tm))
    (pkgOf (generate_evidence_package "RUN1" "Alex" cStores4 tb tm)) rfl rfl
  ⟨thm.1, thm.2.1, thm.2.2.1, thm.2.2.2.1⟩

/-! ## C5 -/

set_option maxRecDepth 4000 in
/-- C5 counterexample: `outputs_hash` is *not* unaffected by the generation
timestamp: at the same store state and run id, two runs with different
`datetime.now()` readings produce different `outputs_hash` values, because
the executive summary's digest (which embeds the timestamp) feeds the
concatenation. -/
theorem outputs_hash_depends_on_timestamp :
    (generate_evidence_package "RUN1" "Alex" cStores4 ta tm).map
        (fun p => p.manifest.outputs_hash) ≠
      (generate_evidence_package "RUN1" "Alex" cStores4 tb tm).map
        (fun p => p.manifest.outputs_hash) := by
  decide

/-- C5 (amended): `outputs_hash` equals the digest of the concatenation of
the five non-manifest artifact digests taken in lexicographic artifact-name
order, the manifest's own digest being excluded from its input; it is
therefore a function of those five artifacts' bytes — but it is *not*
independent of `run_id` or of the generation timestamp, because the executive
summary (one of the five) embeds both. -/
theorem outputs_hash_is_digest_of_sorted_artifact_digests
    (run_id team_or_user : String) (st : Stores) (ts tmf : String) (p : EvidencePackage)
    (hp : generate_evidence_package run_id team_or_user st ts tmf = Except.ok p) :
    p.manifest.outputs_hash =
      compute_sha256 (compute_sha256 p.summary_md ++ compute_sha256 p.config_json ++
        compute_sha256 p.risk_map_json ++ compute_sha256 p.inventory_csv ++
        compute_sha256 p.tiering_json) ∧
    p.manifest.artifacts.map (fun a => a.name) =
      ["case1_executive_summary.md", "config_snapshot.json", "lifecycle_risk_map.json",
       "model_inventory.csv", "risk_tiering.json"] ∧
    (p.manifest.artifacts.map (fun a => a.name)).contains "evidence_manifest.json" = false := by
  by_cases he : (get_all_systems st.systems).isEmpty = true
  · rw [generate_evidence_package, if_pos he] at hp
    cases hp
  · rw [generate_evidence_package, if_neg he] at hp
    injection hp with hp
    subst hp
    exact ⟨rfl, rfl, rfl⟩

/-- Witness for C5 (amended) at the one-system fixture. -/
theorem outputs_hash_digest_formula_witness :
    (pkgOf (generate_evidence_package "RUN1" "Alex" cStores4 ta tm)).manifest.outputs_hash =
      compute_sha256
        (compute_sha256 (pkgOf (generate_evidence_package "RUN1" "Alex" cStores4 ta tm)).summary_md ++
         compute_sha256 (pkgOf (generate_evidence_package "RUN1" "Alex" cStores4 ta tm)).config_json ++
         compute_sha256 (pkgOf (generate_evidence_package "RUN1" "Alex" cStores4 ta tm)).risk_map_json ++
         compute_sha256 (pkgOf (generate_evidence_package "RUN1" "Alex" cStores4 ta tm)).inventory_csv ++
         compute_sha256 (pkgOf (generate_evidence_package "RUN1" "Alex" cStores4 ta tm)).tiering_json) ∧
    ((pkgOf (generate_evidence_package "RUN1" "Alex" cStores4 ta tm)).manifest.artifacts.map
        (fun a => a.name)).contains "evidence_manifest.json" = false :=
  let thm := outputs_hash_is_digest_of_sorted_artifact_digests "RUN1" "Alex" cStores4 ta tm
    (pkgOf (generate_evidence_package "RUN1" "Alex" cStores4 ta tm)) rfl
  ⟨thm.1, thm.2.2⟩
